import Mathlib

/-!
Shallow embedding of `src/env.rs` from the `redo-rs` repository: the session
bootstrap and environment-propagated configuration layer.

The OS process environment is modelled as a total map `String → String`, with
the empty string standing for an unset variable (the source reads every
variable through `unwrap_or_default`, `get_bool` treats unset and empty alike,
and it clears variables by setting them to `""`, so this quotient is faithful
to every observation the code makes).

Filesystem existence tests and the I/O-derived inputs of `Env::init`
(current working directory, executable path, the computed `PATH` prefix) are
passed in as explicit parameters; paths are lists of components, an absolute
path being the list of components below the root.
-/

namespace RedoRs

/-- The OS environment block: a map from variable name to value, where the
empty string denotes an unset variable. -/
abbrev EnvMap := String → String

/-- Rust `env::set_var`. -/
def setv (e : EnvMap) (k v : String) : EnvMap :=
  fun k2 => if k2 = k then v else e k2

def ENV_BASE : String := "REDO_BASE"

def ENV_COLOR : String := "REDO_COLOR"

def ENV_DEBUG : String := "REDO_DEBUG"

def ENV_DEBUG_LOCKS : String := "REDO_DEBUG_LOCKS"

def ENV_DEBUG_PIDS : String := "REDO_DEBUG_PIDS"

def ENV_DEPTH : String := "REDO_DEPTH"

def ENV_KEEP_GOING : String := "REDO_KEEP_GOING"

def ENV_LOCKS_BROKEN : String := "REDO_LOCKS_BROKEN"

def ENV_LOG : String := "REDO_LOG"

def ENV_LOG_INODE : String := "REDO_LOG_INODE"

def ENV_NO_OOB : String := "REDO_NO_OOB"

def ENV_PRETTY : String := "REDO_PRETTY"

def ENV_PWD : String := "REDO_PWD"

def ENV_REDO : String := "REDO"

def ENV_RUNID : String := "REDO_RUNID"

def ENV_SHUFFLE : String := "REDO_SHUFFLE"

def ENV_STARTDIR : String := "REDO_STARTDIR"

def ENV_TARGET : String := "REDO_TARGET"

def ENV_UNLOCKED : String := "REDO_UNLOCKED"

def ENV_XTRACE : String := "REDO_XTRACE"

def ENV_VERBOSE : String := "REDO_VERBOSE"

/-- Source `get_bool`: true iff the variable is present and non-empty. -/
def getBool (e : EnvMap) (k : String) : Bool :=
  e k != ""

/-- A non-empty all-digit character run parsed as a natural number
(the digits part of `i64::from_str`). -/
def parseDigits? (cs : List Char) : Option Nat :=
  match cs with
  | [] => none
  | _ =>
    if cs.all (fun c => c.isDigit) then
      some (cs.foldl (fun a c => a * 10 + (c.toNat - 48)) 0)
    else
      none

/-- Rust `i64::from_str`: an optional sign followed by one or more decimal digits,
failing when the value does not fit in a signed 64-bit integer. -/
def parseI64? (s : String) : Option Int :=
  let p : Bool × List Char :=
    match s.data with
    | '-' :: r => (true, r)
    | '+' :: r => (false, r)
    | r => (false, r)
  match parseDigits? p.2 with
  | none => none
  | some n =>
    let v : Int := if p.1 then -(n : Int) else (n : Int)
    if -(2 ^ 63) ≤ v ∧ v < 2 ^ 63 then some v else none

/-- Source `get_int`: parses the named variable as a 64-bit integer; any parse
failure or absence yields the default. -/
def getInt (e : EnvMap) (k : String) (default : Int) : Int :=
  (parseI64? (e k)).getD default

/-- The Rust `as i32` cast: wrap into the signed 32-bit range. -/
def toI32 (x : Int) : Int :=
  (x + 2 ^ 31) % 2 ^ 32 - 2 ^ 31

/-- A tri-state value that is forced on or off, or has an automatic
(default) value. -/
inductive OptionalBool where
  | Off
  | Auto
  | On
  deriving DecidableEq, Repr

/-- Source `OptionalBool::unwrap_or`: the boolean value or a provided default. -/
def OptionalBool.unwrap_or (self : OptionalBool) (default : Bool) : Bool :=
  match self with
  | .On => true
  | .Off => false
  | .Auto => default

/-- Source `OptionalBool::unwrap_or_else`: the boolean value or the closure result. -/
def OptionalBool.unwrap_or_else (self : OptionalBool) (f : Unit → Bool) : Bool :=
  match self with
  | .On => true
  | .Off => false
  | .Auto => f ()

inductive RedoErrorKind where
  | generic
  | invalidTarget (target : String)
  deriving DecidableEq, Repr

structure RedoError where
  kind : RedoErrorKind
  msg : String
  deriving DecidableEq, Repr

/-- The session state object (struct `Env` of `env.rs`).  The
`redo_links_dir` resource handle is kept as a bare flag recording whether this
session owns the ephemeral symlink directory. -/
structure Env where
  is_toplevel : Bool
  base : String
  pwd : String
  target : String
  depth : String
  debug : Int
  debug_locks : Bool
  debug_pids : Bool
  locks_broken : Bool
  verbose : Int
  xtrace : Int
  keep_going : Bool
  log : Int
  log_inode : String
  color : Int
  pretty : Int
  shuffle : Bool
  startdir : String
  runid : Option Int
  unlocked : Bool
  no_oob : Bool
  owns_links_dir : Bool
  deriving DecidableEq, Repr

/-- The error returned by `Env::inherit` when the `REDO` marker is absent. -/
def usageError : RedoError :=
  ⟨.generic, "must be run from inside a .do"⟩

/-- The error returned by `Env::inherit` when the depth string contains a
non-space character; the message names the offending value. -/
def depthError (d : String) : RedoError :=
  ⟨.generic, "REDO_DEPTH=" ++ reprStr d ++ " contains non-space characters"⟩

/-- Source `Env::inherit`: read an already-established environment into a session
state object.  The validation performed by `RedoPathBuf::try_from` lives in
`helpers.rs`, which is not part of the given source, so it is abstracted as
the parameter `validTarget`.  Returns the result together with the resulting
environment block. -/
def Env.inherit (validTarget : String → Bool) (e : EnvMap) :
    Except RedoError Env × EnvMap :=
  if !getBool e ENV_REDO then
    (.error usageError, e)
  else if !validTarget (e ENV_TARGET) then
    (.error ⟨.invalidTarget (e ENV_TARGET), ENV_TARGET ++ ": invalid target"⟩, e)
  else
    let rid : Int := getInt e ENV_RUNID 0
    let v : Env :=
      { is_toplevel := false
        base := e ENV_BASE
        pwd := e ENV_PWD
        target := e ENV_TARGET
        depth := e ENV_DEPTH
        debug := toI32 (getInt e ENV_DEBUG 0)
        debug_locks := getBool e ENV_DEBUG_LOCKS
        debug_pids := getBool e ENV_DEBUG_PIDS
        locks_broken := getBool e ENV_LOCKS_BROKEN
        verbose := toI32 (getInt e ENV_VERBOSE 0)
        xtrace := toI32 (getInt e ENV_XTRACE 0)
        keep_going := getBool e ENV_KEEP_GOING
        log := toI32 (getInt e ENV_LOG 1)
        log_inode := e ENV_LOG_INODE
        color := toI32 (getInt e ENV_COLOR 0)
        pretty := toI32 (getInt e ENV_PRETTY 0)
        shuffle := getBool e ENV_SHUFFLE
        startdir := e ENV_STARTDIR
        runid := if rid = 0 then none else some rid
        unlocked := getBool e ENV_UNLOCKED
        no_oob := getBool e ENV_NO_OOB
        owns_links_dir := false }
    if v.depth.data.any (fun c => c ≠ ' ') then
      (.error (depthError v.depth), e)
    else
      (.ok v, setv (setv e ENV_UNLOCKED "") ENV_NO_OOB "")

/-- A path as the Rust `Path` type is used here: an absolute flag and the
list of components. -/
structure RPath where
  absolute : Bool
  components : List String
  deriving DecidableEq, Repr

/-- Rust `Path::parent`: the path with the last component removed; `none` for the
root and the empty path (a path with no parent component). -/
def RPath.parent (p : RPath) : Option RPath :=
  match p.components with
  | [] => none
  | _ => some ⟨p.absolute, p.components.dropLast⟩

/-- The textual form of a path, as carried inside `InvalidTarget`. -/
def RPath.display (p : RPath) : String :=
  (if p.absolute then "/" else "") ++ String.intercalate "/" p.components

/-- Modelled from the spec: `helpers::abs_path` (from `helpers.rs`, which is
not part of the given source) resolves a path to an absolute path relative to
the current working directory. -/
def abs_path (cwd : List String) (p : RPath) : List String :=
  if p.absolute then p.components else cwd ++ p.components

/-- The parent-resolution loop of `Env::init`: for each target, push the
absolute path of its parent directory, failing with `InvalidTarget` on the
first target that has no parent component. -/
def resolveParents (cwd : List String) (targets : List RPath) :
    Except RedoError (List (List String)) :=
  match targets with
  | [] => .ok []
  | t :: rest =>
    match t.parent with
    | none => .error ⟨.invalidTarget t.display, "invalid target: " ++ t.display⟩
    | some par =>
      match resolveParents cwd rest with
      | .error err => .error err
      | .ok ds => .ok (abs_path cwd par :: ds)

/-- Longest common path of two absolute paths (component lists). -/
def longestCommonPath : List String → List String → List String
  | a :: as2, b :: bs => if a = b then a :: longestCommonPath as2 bs else []
  | _, _ => []

/-- Crate function `common_path::common_path_all`: longest common path of a collection of
absolute paths; `none` for the empty collection. -/
def commonPathAll (ps : List (List String)) : Option (List String) :=
  match ps with
  | [] => none
  | p :: rest => some (rest.foldl longestCommonPath p)

/-- The upward walk of `Env::init`, fuelled by the number of components so the
recursion is structural: at each level test for a `.redo` child; on failure at
the root, give up.  `findRedoBase` always supplies fuel equal to the length. -/
def findRedoBaseAux (fs : List String → Bool) : Nat → List String → Option (List String)
  | 0, b => if fs (b ++ [".redo"]) then some b else none
  | n + 1, b =>
    if fs (b ++ [".redo"]) then some b
    else if b.isEmpty then none
    else findRedoBaseAux fs n b.dropLast

/-- The `while let Some(mut b) = base` loop of `Env::init`: the nearest
ancestor (the starting directory included) with a `.redo` child, if any. -/
def findRedoBase (fs : List String → Bool) (b : List String) : Option (List String) :=
  findRedoBaseAux fs b.length b

/-- The base-directory resolution of `Env::init`: the nearest marker-bearing
ancestor, or the original directory when the walk finds none
(`base.unwrap_or(orig_base)`). -/
def resolveBase (fs : List String → Bool) (orig : List String) : List String :=
  (findRedoBase fs orig).getD orig

/-- Render an absolute path (component list) the way `PathBuf` stringifies it
when stored into the environment. -/
def pathToString (p : List String) : String :=
  "/" ++ String.intercalate "/" p

/-- The implicit target used when no targets are given. -/
def allTarget : RPath :=
  ⟨false, ["all"]⟩

/-- The `if !get_bool(ENV_BASE)` block of `Env::init`: establish the base
directory and start directory in the environment when not yet set, failing on
a target with no parent component. -/
def initBaseEnv (fs : List String → Bool) (cwd : List String) (targets : List RPath)
    (e1 : EnvMap) : Except RedoError EnvMap :=
  if !getBool e1 ENV_BASE then
    let tgts : List RPath := if targets.isEmpty then [allTarget] else targets
    match resolveParents cwd tgts with
    | .error err => .error err
    | .ok dirs =>
      let origBase : List String := (commonPathAll (dirs ++ [cwd])).getD []
      let base : List String := resolveBase fs origBase
      .ok (setv (setv e1 ENV_BASE (pathToString base)) ENV_STARTDIR (pathToString cwd))
  else
    .ok e1

/-- Source `Env::init`: start a session for a command that needs the state db.
I/O-derived inputs are explicit parameters: `fs` is the filesystem existence
test, `cwd` the current working directory, `exePath` the current executable
path as recorded in `REDO`, and `newPath` the computed `PATH` value (its
construction from candidate directories and the symlink farm touches only
`PATH`, which no further step reads). -/
def Env.init (validTarget : String → Bool) (fs : List String → Bool)
    (cwd : List String) (targets : List RPath)
    (exePath newPath : String) (e : EnvMap) :
    Except RedoError Env × EnvMap :=
  let tl : Bool := !getBool e ENV_REDO
  let e1 : EnvMap :=
    if tl then setv (setv e "PATH" newPath) ENV_REDO exePath else e
  match initBaseEnv fs cwd targets e1 with
  | .error err => (.error err, e1)
  | .ok e2 =>
    match Env.inherit validTarget e2 with
    | (.ok v, e3) => (.ok { v with is_toplevel := tl, owns_links_dir := tl }, e3)
    | (.error err, e3) => (.error err, e3)

/-- Source `Env::log`: tri-state decode of the stored `log` integer. -/
def Env.logMode (v : Env) : OptionalBool :=
  if v.log = 0 then .Off
  else if v.log = 1 then .Auto
  else .On

/-- Source `Env::color`: tri-state decode of the stored `color` integer. -/
def Env.colorMode (v : Env) : OptionalBool :=
  if v.color = 0 then .Off
  else if v.color = 1 then .Auto
  else .On

/-- Source `Env::pretty`: tri-state decode of the stored `pretty` integer. -/
def Env.prettyMode (v : Env) : OptionalBool :=
  if v.pretty = 0 then .Off
  else if v.pretty = 1 then .Auto
  else .On

/-- Source `Env::mark_locks_broken`: set the sticky locks-broken flag and force
logging off, in the session and in the exported environment. -/
def Env.mark_locks_broken (v : Env) (e : EnvMap) : Env × EnvMap :=
  ({ v with locks_broken := true, log := 0 },
   setv (setv e ENV_LOCKS_BROKEN "1") ENV_LOG "0")

/-- Source `Env::fill_runid`: assign the run identifier and export it; `none` models
the `assert!(self.runid.is_none())` panic when already assigned. -/
def Env.fill_runid (v : Env) (runid : Int) (e : EnvMap) : Option (Env × EnvMap) :=
  match v.runid with
  | some _ => none
  | none => some ({ v with runid := some runid }, setv e ENV_RUNID (toString runid))

/-- Spec-side companion of the upward walk, fuelled like `findRedoBaseAux`:
the chain of ancestors of an absolute path, from the path itself up to and
including the root. -/
def ancestorChainAux : Nat → List String → List (List String)
  | 0, b => [b]
  | n + 1, b => b :: ancestorChainAux n b.dropLast

/-- The chain of ancestors of an absolute path, the path itself first and the
root last. -/
def ancestorChain (b : List String) : List (List String) :=
  ancestorChainAux b.length b

deriving instance DecidableEq for Except

/-- A concrete session value used to build inputs for concrete evaluations. -/
def sampleSession : Env where
  is_toplevel := false
  base := "/"
  pwd := "/"
  target := "all"
  depth := ""
  debug := 0
  debug_locks := false
  debug_pids := false
  locks_broken := false
  verbose := 0
  xtrace := 0
  keep_going := false
  log := 1
  log_inode := ""
  color := 0
  pretty := 0
  shuffle := false
  startdir := "/"
  runid := none
  unlocked := false
  no_oob := false
  owns_links_dir := false

/-- The everywhere-unset environment. -/
def envMap0 : EnvMap := fun _ => ""

/-- A well-formed nested environment with both non-inheritable flags set. -/
def envMap1 : EnvMap := fun k =>
  if k = "REDO" then "x"
  else if k = "REDO_UNLOCKED" then "1"
  else if k = "REDO_NO_OOB" then "1"
  else if k = "REDO_DEPTH" then "  "
  else ""

/-- A nested environment whose depth string holds a non-space character. -/
def envMapBadDepth : EnvMap := fun k =>
  if k = "REDO" then "x"
  else if k = "REDO_DEPTH" then " x"
  else ""

/-- A nested environment whose log level overflows a 32-bit integer. -/
def envMapBigLog : EnvMap := fun k =>
  if k = "REDO" then "x"
  else if k = "REDO_LOG" then "4294967296"
  else ""

lemma setv_ne (e : EnvMap) (k v k2 : String) (h : k2 ≠ k) : setv e k v k2 = e k2 := by
  simp [setv, h]

lemma setv_eq (e : EnvMap) (k v : String) : setv e k v k = v := by
  simp [setv]

lemma getBool_setv_ne (e : EnvMap) (k v k2 : String) (h : k2 ≠ k) :
    getBool (setv e k v) k2 = getBool e k2 := by
  simp [getBool, setv_ne e k v k2 h]

lemma inherit_preserves (vt : String → Bool) (e : EnvMap) (k : String)
    (h1 : k ≠ ENV_UNLOCKED) (h2 : k ≠ ENV_NO_OOB) :
    (Env.inherit vt e).2 k = e k := by
  unfold Env.inherit
  by_cases c1 : getBool e ENV_REDO
  · by_cases c2 : vt (e ENV_TARGET)
    · by_cases c3 : ∃ x ∈ (e ENV_DEPTH).data, ¬x = ' '
      · simp [c1, c2, c3]
      · simp [c1, c2, c3, setv, h1, h2]
    · simp [c1, c2]
  · simp [c1]

lemma tri_iff (n : Int) :
    ((if n = 0 then OptionalBool.Off else if n = 1 then .Auto else .On) = .Off ↔ n = 0) ∧
    ((if n = 0 then OptionalBool.Off else if n = 1 then .Auto else .On) = .Auto ↔ n = 1) ∧
    ((if n = 0 then OptionalBool.Off else if n = 1 then .Auto else .On) = .On ↔
      n ≠ 0 ∧ n ≠ 1) := by
  by_cases h0 : n = 0 <;> by_cases h1 : n = 1 <;> simp_all

/-- Claim C4: the tri-state decoders map the stored integer 0 to Off, 1 to
Auto, and every other value (larger, equal to 2, or negative) to On; and
`unwrap_or` / `unwrap_or_else` return the supplied default (the closure's
result) exactly for Auto, returning true for On and false for Off regardless
of the default or closure. -/
theorem tristate_decode_spec :
    (∀ v : Env,
      ((v.logMode = .Off ↔ v.log = 0) ∧ (v.logMode = .Auto ↔ v.log = 1) ∧
        (v.logMode = .On ↔ v.log ≠ 0 ∧ v.log ≠ 1)) ∧
      ((v.colorMode = .Off ↔ v.color = 0) ∧ (v.colorMode = .Auto ↔ v.color = 1) ∧
        (v.colorMode = .On ↔ v.color ≠ 0 ∧ v.color ≠ 1)) ∧
      ((v.prettyMode = .Off ↔ v.pretty = 0) ∧ (v.prettyMode = .Auto ↔ v.pretty = 1) ∧
        (v.prettyMode = .On ↔ v.pretty ≠ 0 ∧ v.pretty ≠ 1))) ∧
    (∀ d : Bool, OptionalBool.unwrap_or .Auto d = d ∧
      OptionalBool.unwrap_or .On d = true ∧ OptionalBool.unwrap_or .Off d = false) ∧
    (∀ f : Unit → Bool, OptionalBool.unwrap_or_else .Auto f = f () ∧
      OptionalBool.unwrap_or_else .On f = true ∧
      OptionalBool.unwrap_or_else .Off f = false) := by
  refine ⟨fun v => ⟨?_, ?_, ?_⟩, fun d => ⟨rfl, rfl, rfl⟩, fun f => ⟨rfl, rfl, rfl⟩⟩
  · exact tri_iff v.log
  · exact tri_iff v.color
  · exact tri_iff v.pretty

/-- Claim C9: `mark_locks_broken` is idempotent — applying it twice yields the
same session state and environment as applying it once — and it leaves
`locks_broken == true` with the log level forced to 0 both in the session and
in the exported environment. -/
theorem mark_locks_broken_idem (v : Env) (e : EnvMap) :
    Env.mark_locks_broken (Env.mark_locks_broken v e).1 (Env.mark_locks_broken v e).2
      = Env.mark_locks_broken v e ∧
    (Env.mark_locks_broken v e).1.locks_broken = true ∧
    (Env.mark_locks_broken v e).1.log = 0 ∧
    (Env.mark_locks_broken v e).2 ENV_LOCKS_BROKEN = "1" ∧
    (Env.mark_locks_broken v e).2 ENV_LOG = "0" := by
  refine ⟨?_, rfl, rfl, ?_, ?_⟩
  · unfold Env.mark_locks_broken
    refine Prod.ext rfl ?_
    funext k
    by_cases hL : k = ENV_LOG <;> by_cases hB : k = ENV_LOCKS_BROKEN <;> simp [setv, hL, hB]
  · show setv (setv e ENV_LOCKS_BROKEN "1") ENV_LOG "0" ENV_LOCKS_BROKEN = "1"
    rw [setv_ne _ _ _ _ (by decide), setv_eq]
  · show setv (setv e ENV_LOCKS_BROKEN "1") ENV_LOG "0" ENV_LOG = "0"
    rw [setv_eq]

/-- Claim C8: `fill_runid` on a session whose runid is already assigned fails
as a programming-error assertion (modelled as `none`) rather than silently
overwriting, and on a session with runid unassigned it sets the field to the
given identifier and exports it to `REDO_RUNID`. -/
theorem fill_runid_spec (v : Env) (id2 : Int) (e : EnvMap) :
    (∀ x : Int, v.runid = some x → Env.fill_runid v id2 e = none) ∧
    (v.runid = none →
      Env.fill_runid v id2 e =
        some ({ v with runid := some id2 }, setv e ENV_RUNID (toString id2))) := by
  constructor
  · intro x hx
    simp [Env.fill_runid, hx]
  · intro hx
    simp [Env.fill_runid, hx]

/-- Concrete instance of the `fill_runid` property: a second assignment fails
and a first assignment records and exports the identifier. -/
theorem fill_runid_spec_witness :
    Env.fill_runid { sampleSession with runid := some 3 } 7 envMap0 = none ∧
    Env.fill_runid sampleSession 7 envMap0 =
      some ({ sampleSession with runid := some 7 }, setv envMap0 ENV_RUNID (toString 7)) :=
  ⟨(fill_runid_spec { sampleSession with runid := some 3 } 7 envMap0).1 3 rfl,
   (fill_runid_spec sampleSession 7 envMap0).2 rfl⟩

lemma inherit_ok_eq (vt : String → Bool) (e : EnvMap)
    (c1 : getBool e ENV_REDO = true) (c2 : vt (e ENV_TARGET) = true)
    (c3 : ¬∃ x ∈ (e ENV_DEPTH).data, ¬x = ' ') :
    Env.inherit vt e =
      (.ok
        { is_toplevel := false
          base := e ENV_BASE
          pwd := e ENV_PWD
          target := e ENV_TARGET
          depth := e ENV_DEPTH
          debug := toI32 (getInt e ENV_DEBUG 0)
          debug_locks := getBool e ENV_DEBUG_LOCKS
          debug_pids := getBool e ENV_DEBUG_PIDS
          locks_broken := getBool e ENV_LOCKS_BROKEN
          verbose := toI32 (getInt e ENV_VERBOSE 0)
          xtrace := toI32 (getInt e ENV_XTRACE 0)
          keep_going := getBool e ENV_KEEP_GOING
          log := toI32 (getInt e ENV_LOG 1)
          log_inode := e ENV_LOG_INODE
          color := toI32 (getInt e ENV_COLOR 0)
          pretty := toI32 (getInt e ENV_PRETTY 0)
          shuffle := getBool e ENV_SHUFFLE
          startdir := e ENV_STARTDIR
          runid := if getInt e ENV_RUNID 0 = 0 then none else some (getInt e ENV_RUNID 0)
          unlocked := getBool e ENV_UNLOCKED
          no_oob := getBool e ENV_NO_OOB
          owns_links_dir := false },
       setv (setv e ENV_UNLOCKED "") ENV_NO_OOB "") := by
  unfold Env.inherit
  simp [c1, c2, c3]

lemma inherit_isOk (vt : String → Bool) (e : EnvMap)
    (h : (Env.inherit vt e).1.isOk = true) :
    getBool e ENV_REDO = true ∧ vt (e ENV_TARGET) = true ∧
      ¬∃ x ∈ (e ENV_DEPTH).data, ¬x = ' ' := by
  by_cases c1 : getBool e ENV_REDO
  · by_cases c2 : vt (e ENV_TARGET)
    · by_cases c3 : ∃ x ∈ (e ENV_DEPTH).data, ¬x = ' '
      · exfalso
        unfold Env.inherit at h
        simp [c1, c2, c3, Except.isOk, Except.toBool] at h
      · exact ⟨c1, c2, c3⟩
    · exfalso
      unfold Env.inherit at h
      simp [c1, c2, Except.isOk, Except.toBool] at h
  · exfalso
    unfold Env.inherit at h
    simp [c1, Except.isOk, Except.toBool] at h

/-- Claim C3: when the `REDO` marker is absent or empty, `Env::inherit` fails
with the usage error without partially constructing a session, and on every
error path the environment is left unchanged (in particular `REDO_UNLOCKED`
and `REDO_NO_OOB` are not cleared). -/
theorem inherit_usage_error_spec (vt : String → Bool) (e : EnvMap) :
    (getBool e ENV_REDO = false → Env.inherit vt e = (.error usageError, e)) ∧
    (∀ err : RedoError, (Env.inherit vt e).1 = .error err → (Env.inherit vt e).2 = e) := by
  constructor
  · intro h
    unfold Env.inherit
    simp [h]
  · intro err herr
    by_cases c1 : getBool e ENV_REDO
    · by_cases c2 : vt (e ENV_TARGET)
      · by_cases c3 : ∃ x ∈ (e ENV_DEPTH).data, ¬x = ' '
        · unfold Env.inherit
          simp [c1, c2, c3]
        · rw [inherit_ok_eq vt e c1 c2 c3] at herr
          simp at herr
      · unfold Env.inherit
        simp [c1, c2]
    · unfold Env.inherit
      simp [c1]

/-- Concrete instance of the usage-error property: on the empty environment
`inherit` returns exactly the usage error and the unchanged environment. -/
theorem inherit_usage_error_spec_witness :
    Env.inherit (fun _ => true) envMap0 = (.error usageError, envMap0) ∧
    (Env.inherit (fun _ => true) envMap0).2 = envMap0 :=
  ⟨(inherit_usage_error_spec (fun _ => true) envMap0).1 (by decide),
   (inherit_usage_error_spec (fun _ => true) envMap0).2 usageError (by decide)⟩

/-- Claim C5: after a successful `inherit` both `REDO_UNLOCKED` and
`REDO_NO_OOB` are cleared from the environment (a child reading them as
presence flags observes false), while the returned session's `unlocked` and
`no_oob` fields hold the values read before clearing. -/
theorem inherit_clears_flags_spec (vt : String → Bool) (e : EnvMap)
    (h : (Env.inherit vt e).1.isOk = true) :
    (Env.inherit vt e).2 ENV_UNLOCKED = "" ∧
    (Env.inherit vt e).2 ENV_NO_OOB = "" ∧
    getBool ((Env.inherit vt e).2) ENV_UNLOCKED = false ∧
    getBool ((Env.inherit vt e).2) ENV_NO_OOB = false ∧
    (Env.inherit vt e).1.toOption.map Env.unlocked = some (getBool e ENV_UNLOCKED) ∧
    (Env.inherit vt e).1.toOption.map Env.no_oob = some (getBool e ENV_NO_OOB) := by
  obtain ⟨c1, c2, c3⟩ := inherit_isOk vt e h
  rw [inherit_ok_eq vt e c1 c2 c3]
  refine ⟨?_, ?_, ?_, ?_, ?_, ?_⟩
  · show setv (setv e ENV_UNLOCKED "") ENV_NO_OOB "" ENV_UNLOCKED = ""
    rw [setv_ne _ _ _ _ (by decide), setv_eq]
  · show setv (setv e ENV_UNLOCKED "") ENV_NO_OOB "" ENV_NO_OOB = ""
    rw [setv_eq]
  · show getBool (setv (setv e ENV_UNLOCKED "") ENV_NO_OOB "") ENV_UNLOCKED = false
    rw [getBool, setv_ne _ _ _ _ (by decide), setv_eq]
    rfl
  · show getBool (setv (setv e ENV_UNLOCKED "") ENV_NO_OOB "") ENV_NO_OOB = false
    rw [getBool, setv_eq]
    rfl
  · simp [Except.toOption]
  · simp [Except.toOption]

/-- Concrete instance of the flag-clearing property, on an environment where
both flags start out set. -/
theorem inherit_clears_flags_spec_witness :
    (Env.inherit (fun _ => true) envMap1).2 ENV_UNLOCKED = "" ∧
    (Env.inherit (fun _ => true) envMap1).2 ENV_NO_OOB = "" ∧
    getBool ((Env.inherit (fun _ => true) envMap1).2) ENV_UNLOCKED = false ∧
    getBool ((Env.inherit (fun _ => true) envMap1).2) ENV_NO_OOB = false ∧
    (Env.inherit (fun _ => true) envMap1).1.toOption.map Env.unlocked =
      some (getBool envMap1 ENV_UNLOCKED) ∧
    (Env.inherit (fun _ => true) envMap1).1.toOption.map Env.no_oob =
      some (getBool envMap1 ENV_NO_OOB) :=
  inherit_clears_flags_spec (fun _ => true) envMap1 (by decide)

/-- Claim C7: a depth string consisting only of spaces (the empty string
included) lets construction succeed with `depth` returning exactly that
string; a depth string with any non-space character makes construction fail
with an error naming the offending value. -/
theorem inherit_depth_spec (vt : String → Bool) (e : EnvMap)
    (hr : getBool e ENV_REDO = true) (ht : vt (e ENV_TARGET) = true) :
    ((e ENV_DEPTH).data.all (fun c => c = ' ') = true →
      (Env.inherit vt e).1.toOption.map Env.depth = some (e ENV_DEPTH)) ∧
    ((e ENV_DEPTH).data.all (fun c => c = ' ') = false →
      (Env.inherit vt e).1 = .error (depthError (e ENV_DEPTH))) := by
  constructor
  · intro hall
    have c3 : ¬∃ x ∈ (e ENV_DEPTH).data, ¬x = ' ' := by
      rw [List.all_eq_true] at hall
      rintro ⟨x, hx, hne⟩
      exact hne (by simpa using hall x hx)
    rw [inherit_ok_eq vt e hr ht c3]
    simp [Except.toOption]
  · intro hall
    have c3 : ∃ x ∈ (e ENV_DEPTH).data, ¬x = ' ' := by
      rw [List.all_eq_false] at hall
      simpa using hall
    unfold Env.inherit
    simp [hr, ht, c3]

/-- Concrete instances of the depth property: a two-space depth succeeds and
is returned verbatim; a depth holding an `x` fails with the naming error. -/
theorem inherit_depth_spec_witness :
    (Env.inherit (fun _ => true) envMap1).1.toOption.map Env.depth =
      some (envMap1 ENV_DEPTH) ∧
    (Env.inherit (fun _ => true) envMapBadDepth).1 =
      .error (depthError (envMapBadDepth ENV_DEPTH)) :=
  ⟨(inherit_depth_spec (fun _ => true) envMap1 (by decide) rfl).1 (by decide),
   (inherit_depth_spec (fun _ => true) envMapBadDepth (by decide) rfl).2 (by decide)⟩

/-- Claim C10: `get_int` parses 64-bit integers but `inherit` stores the
integer fields after a wrapping cast to 32 bits, so values outside the i32
range are reduced modulo 2^32; in particular a `REDO_LOG` value of 2^32
yields `log == 0`, which decodes as Off rather than On. -/
theorem inherit_i32_cast_spec (vt : String → Bool) (e : EnvMap)
    (h : (Env.inherit vt e).1.isOk = true) :
    (Env.inherit vt e).1.toOption.map Env.debug = some (toI32 (getInt e ENV_DEBUG 0)) ∧
    (Env.inherit vt e).1.toOption.map Env.verbose = some (toI32 (getInt e ENV_VERBOSE 0)) ∧
    (Env.inherit vt e).1.toOption.map Env.xtrace = some (toI32 (getInt e ENV_XTRACE 0)) ∧
    (Env.inherit vt e).1.toOption.map Env.log = some (toI32 (getInt e ENV_LOG 1)) ∧
    (Env.inherit vt e).1.toOption.map Env.color = some (toI32 (getInt e ENV_COLOR 0)) ∧
    (Env.inherit vt e).1.toOption.map Env.pretty = some (toI32 (getInt e ENV_PRETTY 0)) ∧
    (∀ x : Int, toI32 x % 2 ^ 32 = x % 2 ^ 32) ∧
    parseI64? "4294967296" = some (2 ^ 32) ∧
    toI32 (2 ^ 32) = 0 ∧
    (e ENV_LOG = "4294967296" →
      (Env.inherit vt e).1.toOption.map Env.log = some 0 ∧
      (Env.inherit vt e).1.toOption.map Env.logMode = some .Off) := by
  obtain ⟨c1, c2, c3⟩ := inherit_isOk vt e h
  rw [inherit_ok_eq vt e c1 c2 c3]
  refine ⟨by simp [Except.toOption], by simp [Except.toOption], by simp [Except.toOption],
    by simp [Except.toOption], by simp [Except.toOption], by simp [Except.toOption],
    ?_, by decide, by decide, ?_⟩
  · intro x
    unfold toI32
    omega
  · intro hlog
    have hv : toI32 (getInt e ENV_LOG 1) = 0 := by
      rw [getInt, hlog]
      decide
    constructor
    · simp [Except.toOption, hv]
    · simp [Except.toOption, Env.logMode, hv]

/-- Concrete instance of the 32-bit wrap: with `REDO_LOG=4294967296` the
session's log level is 0 and decodes to Off. -/
theorem inherit_i32_cast_spec_witness :
    (Env.inherit (fun _ => true) envMapBigLog).1.toOption.map Env.log = some 0 ∧
    (Env.inherit (fun _ => true) envMapBigLog).1.toOption.map Env.logMode = some .Off :=
  (inherit_i32_cast_spec (fun _ => true) envMapBigLog (by decide)).2.2.2.2.2.2.2.2.2
    (by decide)

/-- A nested environment with only the invocation-tree marker set. -/
def envMapRedoOnly : EnvMap := fun k =>
  if k = "REDO" then "x" else ""

/-- A nested environment with both marker variables already established. -/
def envMapFull : EnvMap := fun k =>
  if k = "REDO" then "x"
  else if k = "REDO_BASE" then "/proj"
  else ""

lemma getBool_init_e1 (e : EnvMap) (exePath newPath : String) :
    getBool (if !getBool e ENV_REDO then setv (setv e "PATH" newPath) ENV_REDO exePath else e)
      ENV_BASE = getBool e ENV_BASE := by
  split
  · rw [getBool_setv_ne _ _ _ _ (by decide), getBool_setv_ne _ _ _ _ (by decide)]
  · rfl

lemma init_eq_match (validTarget : String → Bool) (fs : List String → Bool)
    (cwd : List String) (targets : List RPath) (exePath newPath : String) (e : EnvMap) :
    Env.init validTarget fs cwd targets exePath newPath e =
      (match initBaseEnv fs cwd targets
          (if !getBool e ENV_REDO then setv (setv e "PATH" newPath) ENV_REDO exePath else e) with
      | .error err => (.error err,
          if !getBool e ENV_REDO then setv (setv e "PATH" newPath) ENV_REDO exePath else e)
      | .ok e2 =>
        match Env.inherit validTarget e2 with
        | (.ok v, e3) =>
            (.ok { v with is_toplevel := !getBool e ENV_REDO,
                          owns_links_dir := !getBool e ENV_REDO }, e3)
        | (.error err, e3) => (.error err, e3)) := rfl

lemma initBaseEnv_of_unset (fs : List String → Bool) (cwd : List String)
    (targets : List RPath) (e1 : EnvMap) (dirs : List (List String))
    (hb : getBool e1 ENV_BASE = false)
    (hpar : resolveParents cwd (if targets.isEmpty then [allTarget] else targets) = .ok dirs) :
    initBaseEnv fs cwd targets e1 =
      .ok (setv (setv e1 ENV_BASE
            (pathToString (resolveBase fs ((commonPathAll (dirs ++ [cwd])).getD []))))
          ENV_STARTDIR (pathToString cwd)) := by
  unfold initBaseEnv
  rw [hb]
  simp only [Bool.not_false, if_true]
  rw [hpar]

lemma initBaseEnv_of_set (fs : List String → Bool) (cwd : List String)
    (targets : List RPath) (e1 : EnvMap) (hb : getBool e1 ENV_BASE = true) :
    initBaseEnv fs cwd targets e1 = .ok e1 := by
  unfold initBaseEnv
  rw [hb]
  simp

lemma initBaseEnv_of_error (fs : List String → Bool) (cwd : List String)
    (targets : List RPath) (e1 : EnvMap) (err : RedoError)
    (hb : getBool e1 ENV_BASE = false)
    (hpar : resolveParents cwd (if targets.isEmpty then [allTarget] else targets) =
      .error err) :
    initBaseEnv fs cwd targets e1 = .error err := by
  unfold initBaseEnv
  rw [hb]
  simp only [Bool.not_false, if_true]
  rw [hpar]

lemma init_of_baseOk (validTarget : String → Bool) (fs : List String → Bool)
    (cwd : List String) (targets : List RPath) (exePath newPath : String)
    (e e2 : EnvMap)
    (hb : initBaseEnv fs cwd targets
        (if !getBool e ENV_REDO then setv (setv e "PATH" newPath) ENV_REDO exePath else e) =
      .ok e2) :
    Env.init validTarget fs cwd targets exePath newPath e =
      (match Env.inherit validTarget e2 with
      | (.ok v, e3) =>
          (.ok { v with is_toplevel := !getBool e ENV_REDO,
                        owns_links_dir := !getBool e ENV_REDO }, e3)
      | (.error err, e3) => (.error err, e3)) := by
  rw [init_eq_match, hb]

lemma init_of_baseError (validTarget : String → Bool) (fs : List String → Bool)
    (cwd : List String) (targets : List RPath) (exePath newPath : String)
    (e : EnvMap) (err : RedoError)
    (hb : initBaseEnv fs cwd targets
        (if !getBool e ENV_REDO then setv (setv e "PATH" newPath) ENV_REDO exePath else e) =
      .error err) :
    Env.init validTarget fs cwd targets exePath newPath e =
      (.error err,
        if !getBool e ENV_REDO then setv (setv e "PATH" newPath) ENV_REDO exePath else e) := by
  rw [init_eq_match, hb]

lemma init_env_of_ok (validTarget : String → Bool) (fs : List String → Bool)
    (cwd : List String) (targets : List RPath) (exePath newPath : String)
    (e e2 : EnvMap)
    (hb : initBaseEnv fs cwd targets
        (if !getBool e ENV_REDO then setv (setv e "PATH" newPath) ENV_REDO exePath else e) =
      .ok e2) :
    (Env.init validTarget fs cwd targets exePath newPath e).2 =
      (Env.inherit validTarget e2).2 := by
  rw [init_of_baseOk validTarget fs cwd targets exePath newPath e e2 hb]
  rcases hinh : Env.inherit validTarget e2 with ⟨res, e3⟩
  cases res <;> rfl

lemma init_toplevel_of_ok (validTarget : String → Bool) (fs : List String → Bool)
    (cwd : List String) (targets : List RPath) (exePath newPath : String)
    (e : EnvMap) (v : Env)
    (h : (Env.init validTarget fs cwd targets exePath newPath e).1 = .ok v) :
    v.is_toplevel = !getBool e ENV_REDO := by
  rcases hb : initBaseEnv fs cwd targets
      (if !getBool e ENV_REDO then setv (setv e "PATH" newPath) ENV_REDO exePath else e)
    with err | e2
  · rw [init_of_baseError validTarget fs cwd targets exePath newPath e err hb] at h
    simp at h
  · rw [init_of_baseOk validTarget fs cwd targets exePath newPath e e2 hb] at h
    rcases hinh : Env.inherit validTarget e2 with ⟨res, e3⟩
    rw [hinh] at h
    cases res with
    | error err => simp at h
    | ok v2 =>
      simp at h
      rw [← h]

/-- Claim C2 (amended): a first invocation (`REDO` unset) yields a session
with `is_toplevel == true`; a nested invocation (`REDO` set) yields a session
with `is_toplevel == false`, and when `REDO_BASE` is also already set it is
left unchanged.  (As originally stated the claim fails: with `REDO` set but
`REDO_BASE` unset, `Env::init` does recompute `REDO_BASE`.) -/
theorem init_toplevel_spec (validTarget : String → Bool) (fs : List String → Bool)
    (cwd : List String) (targets : List RPath) (exePath newPath : String) (e : EnvMap) :
    (getBool e ENV_REDO = false →
      ((Env.init validTarget fs cwd targets exePath newPath e).1.toOption.map
          Env.is_toplevel).getD true = true) ∧
    (getBool e ENV_REDO = true →
      ((Env.init validTarget fs cwd targets exePath newPath e).1.toOption.map
          Env.is_toplevel).getD false = false ∧
      (getBool e ENV_BASE = true →
        (Env.init validTarget fs cwd targets exePath newPath e).2 ENV_BASE =
          e ENV_BASE)) := by
  constructor
  · intro hr
    rcases hres : (Env.init validTarget fs cwd targets exePath newPath e).1 with err | v
    · simp [hres, Except.toOption]
    · have htl := init_toplevel_of_ok validTarget fs cwd targets exePath newPath e v hres
      simp [hres, Except.toOption, htl, hr]
  · intro hr
    constructor
    · rcases hres : (Env.init validTarget fs cwd targets exePath newPath e).1 with err | v
      · simp [hres, Except.toOption]
      · have htl := init_toplevel_of_ok validTarget fs cwd targets exePath newPath e v hres
        simp [hres, Except.toOption, htl, hr]
    · intro hbase
      have he1 :
          (if !getBool e ENV_REDO then setv (setv e "PATH" newPath) ENV_REDO exePath else e)
            = e := by
        rw [hr]
        simp
      have hb := initBaseEnv_of_set fs cwd targets e hbase
      have h2 := init_env_of_ok validTarget fs cwd targets exePath newPath e e
        (by rw [he1]; exact hb)
      rw [h2]
      exact inherit_preserves validTarget e ENV_BASE (by decide) (by decide)

/-- The nested half of claim C2 as originally stated is false: with `REDO`
set but `REDO_BASE` unset, `Env::init` recomputes `REDO_BASE`, changing it. -/
theorem init_nested_base_counterexample :
    getBool envMapRedoOnly ENV_REDO = true ∧
    (Env.init (fun _ => true) (fun _ => false) [] [] "x" "" envMapRedoOnly).2 ENV_BASE ≠
      envMapRedoOnly ENV_BASE := by
  decide

/-- Concrete instance of the amended claim C2: a first invocation is
toplevel; a nested invocation with `REDO_BASE` set is not toplevel and keeps
`REDO_BASE` verbatim. -/
theorem init_toplevel_spec_witness :
    ((Env.init (fun _ => true) (fun _ => false) [] [] "x" "" envMap0).1.toOption.map
        Env.is_toplevel).getD true = true ∧
    ((Env.init (fun _ => true) (fun _ => false) [] [] "x" "" envMapFull).1.toOption.map
        Env.is_toplevel).getD false = false ∧
    (Env.init (fun _ => true) (fun _ => false) [] [] "x" "" envMapFull).2 ENV_BASE =
      envMapFull ENV_BASE :=
  ⟨(init_toplevel_spec (fun _ => true) (fun _ => false) [] [] "x" "" envMap0).1 (by decide),
   ((init_toplevel_spec (fun _ => true) (fun _ => false) [] [] "x" "" envMapFull).2
      (by decide)).1,
   ((init_toplevel_spec (fun _ => true) (fun _ => false) [] [] "x" "" envMapFull).2
      (by decide)).2 (by decide)⟩

lemma findRedoBaseAux_eq_find (fs : List String → Bool) :
    ∀ (n : Nat) (b : List String), n = b.length →
      findRedoBaseAux fs n b =
        (ancestorChainAux n b).find? (fun a => fs (a ++ [".redo"])) := by
  intro n
  induction n with
  | zero =>
    intro b _
    by_cases hf : fs (b ++ [".redo"]) <;>
      simp [findRedoBaseAux, ancestorChainAux, List.find?, hf]
  | succ n ih =>
    intro b h
    have hb : b.isEmpty = false := by
      cases b
      · simp at h
      · rfl
    have hlen : n = b.dropLast.length := by
      rw [List.length_dropLast]
      omega
    by_cases hf : fs (b ++ [".redo"]) <;>
      simp [findRedoBaseAux, ancestorChainAux, List.find?, hf, hb, ih b.dropLast hlen]

lemma resolveBase_eq_find (fs : List String → Bool) (orig : List String) :
    resolveBase fs orig =
      ((ancestorChain orig).find? (fun a => fs (a ++ [".redo"]))).getD orig := by
  unfold resolveBase findRedoBase ancestorChain
  rw [findRedoBaseAux_eq_find fs orig.length orig rfl]

/-- Claim C1: when the base directory is not yet established, the resolver
run by `Env::init` stores into `REDO_BASE` the nearest ancestor — walking
upward from the common ancestor of all the targets' parent directories and
the current working directory — that contains a `.redo` marker directory as a
direct child, and the originally computed common ancestor itself when no
ancestor at any level contains the marker. -/
theorem init_base_resolution_spec (validTarget : String → Bool) (fs : List String → Bool)
    (cwd : List String) (targets : List RPath) (exePath newPath : String)
    (e : EnvMap) (dirs : List (List String))
    (hbase : getBool e ENV_BASE = false)
    (hpar : resolveParents cwd (if targets.isEmpty then [allTarget] else targets) =
      .ok dirs) :
    (Env.init validTarget fs cwd targets exePath newPath e).2 ENV_BASE =
      pathToString
        (((ancestorChain ((commonPathAll (dirs ++ [cwd])).getD [])).find?
            (fun a => fs (a ++ [".redo"]))).getD
          ((commonPathAll (dirs ++ [cwd])).getD [])) := by
  have h1 : getBool
      (if !getBool e ENV_REDO then setv (setv e "PATH" newPath) ENV_REDO exePath else e)
      ENV_BASE = false := by
    rw [getBool_init_e1]
    exact hbase
  have hb := initBaseEnv_of_unset fs cwd targets
    (if !getBool e ENV_REDO then setv (setv e "PATH" newPath) ENV_REDO exePath else e)
    dirs h1 hpar
  have h2 := init_env_of_ok validTarget fs cwd targets exePath newPath e _ hb
  rw [h2, inherit_preserves _ _ _ (by decide) (by decide)]
  rw [setv_ne _ _ _ _ (by decide), setv_eq, resolveBase_eq_find]

/-- Concrete instance of the base resolution: targets `a/b/out` and `a/c/out`
run from `/r/proj` with a marker only at `/r/.redo` resolve the base to the
nearest marker-bearing ancestor of the common ancestor `/r/proj`. -/
theorem init_base_resolution_spec_witness :
    (Env.init (fun _ => true) (fun p => p == ["r", ".redo"]) ["r", "proj"]
        [⟨false, ["a", "b", "out"]⟩, ⟨false, ["a", "c", "out"]⟩] "x" "" envMap0).2 ENV_BASE =
      pathToString
        (((ancestorChain ((commonPathAll
              ([["r", "proj", "a", "b"], ["r", "proj", "a", "c"]] ++ [["r", "proj"]])).getD
              [])).find?
            (fun a => (fun p => p == ["r", ".redo"]) (a ++ [".redo"]))).getD
          ((commonPathAll
              ([["r", "proj", "a", "b"], ["r", "proj", "a", "c"]] ++ [["r", "proj"]])).getD
            [])) :=
  init_base_resolution_spec (fun _ => true) (fun p => p == ["r", ".redo"]) ["r", "proj"]
    [⟨false, ["a", "b", "out"]⟩, ⟨false, ["a", "c", "out"]⟩] "x" "" envMap0
    [["r", "proj", "a", "b"], ["r", "proj", "a", "c"]] (by decide) (by decide)

lemma parent_of_nonempty (t : RPath) (ht : t.components ≠ []) :
    t.parent = some ⟨t.absolute, t.components.dropLast⟩ := by
  rcases hc : t.components with _ | ⟨a, l⟩
  · exact absurd hc ht
  · simp [RPath.parent, hc]

lemma parent_of_empty (t : RPath) (ht : t.components = []) : t.parent = none := by
  simp [RPath.parent, ht]

lemma resolveParents_cons (cwd : List String) (t : RPath) (rest : List RPath) :
    resolveParents cwd (t :: rest) =
      (match t.parent with
      | none => .error ⟨.invalidTarget t.display, "invalid target: " ++ t.display⟩
      | some par =>
        match resolveParents cwd rest with
        | .error err => .error err
        | .ok ds => .ok (abs_path cwd par :: ds)) := rfl

lemma resolveParents_ok (cwd : List String) :
    ∀ targets : List RPath, (∀ t ∈ targets, t.components ≠ []) →
      resolveParents cwd targets =
        .ok (targets.map (fun t => abs_path cwd ⟨t.absolute, t.components.dropLast⟩)) := by
  intro targets
  induction targets with
  | nil => intro _; rfl
  | cons t rest ih =>
    intro h
    have hpar := parent_of_nonempty t (h t (by simp))
    rw [resolveParents_cons, hpar, ih (fun t2 h2 => h t2 (by simp [h2]))]
    rfl

lemma resolveParents_error (cwd : List String) :
    ∀ pre : List RPath, ∀ post : List RPath, ∀ t : RPath,
      (∀ t2 ∈ pre, t2.components ≠ []) → t.components = [] →
      resolveParents cwd (pre ++ t :: post) =
        .error ⟨.invalidTarget t.display, "invalid target: " ++ t.display⟩ := by
  intro pre
  induction pre with
  | nil =>
    intro post t _ ht
    rw [List.nil_append, resolveParents_cons, parent_of_empty t ht]
  | cons p ps ih =>
    intro post t h ht
    have hpar := parent_of_nonempty p (h p (by simp))
    rw [List.cons_append, resolveParents_cons, hpar,
      ih post t (fun t2 h2 => h t2 (by simp [h2])) ht]

/-- Claim C6: with the base directory not yet established, `Env::init`
returns an `InvalidTarget` error carrying the offending target value for a
target path with no parent component (the first such target), and parent
resolution succeeds for every target that has a parent. -/
theorem init_invalid_target_spec (validTarget : String → Bool) (fs : List String → Bool)
    (cwd : List String) (exePath newPath : String) (e : EnvMap)
    (hbase : getBool e ENV_BASE = false) :
    (∀ pre post : List RPath, ∀ t : RPath,
      (∀ t2 ∈ pre, t2.components ≠ []) → t.components = [] →
      (Env.init validTarget fs cwd (pre ++ t :: post) exePath newPath e).1 =
        .error ⟨.invalidTarget t.display, "invalid target: " ++ t.display⟩) ∧
    (∀ targets : List RPath, (∀ t ∈ targets, t.components ≠ []) →
      resolveParents cwd targets =
        .ok (targets.map (fun t => abs_path cwd ⟨t.absolute, t.components.dropLast⟩))) := by
  constructor
  · intro pre post t hpre ht
    have h1 : getBool
        (if !getBool e ENV_REDO then setv (setv e "PATH" newPath) ENV_REDO exePath else e)
        ENV_BASE = false := by
      rw [getBool_init_e1]
      exact hbase
    have hne : (pre ++ t :: post).isEmpty = false := by
      cases pre <;> rfl
    have hpar : resolveParents cwd
        (if (pre ++ t :: post).isEmpty then [allTarget] else pre ++ t :: post) =
        .error ⟨.invalidTarget t.display, "invalid target: " ++ t.display⟩ := by
      rw [hne]
      simp only [Bool.false_eq_true, if_false]
      exact resolveParents_error cwd pre post t hpre ht
    have hb := initBaseEnv_of_error fs cwd (pre ++ t :: post) _ _ h1 hpar
    rw [init_of_baseError validTarget fs cwd (pre ++ t :: post) exePath newPath e _ hb]
  · exact resolveParents_ok cwd

/-- Concrete instances of the invalid-target property: a lone empty target
makes `init` fail with `InvalidTarget`, and a target with a parent has its
parent resolved against the working directory. -/
theorem init_invalid_target_spec_witness :
    (Env.init (fun _ => true) (fun _ => false) [] [⟨false, []⟩] "x" "" envMap0).1 =
      .error ⟨.invalidTarget (RPath.display ⟨false, []⟩),
        "invalid target: " ++ RPath.display ⟨false, []⟩⟩ ∧
    resolveParents ["r"] [⟨false, ["a", "out"]⟩] =
      .ok ([(⟨false, ["a", "out"]⟩ : RPath)].map
        (fun t => abs_path ["r"] ⟨t.absolute, t.components.dropLast⟩)) :=
  ⟨(init_invalid_target_spec (fun _ => true) (fun _ => false) [] "x" "" envMap0
      (by decide)).1 [] [] ⟨false, []⟩ (by simp) rfl,
   (init_invalid_target_spec (fun _ => true) (fun _ => false) ["r"] "x" "" envMap0
      (by decide)).2 [⟨false, ["a", "out"]⟩] (by decide)⟩

end RedoRs
